import Mathlib
set_option linter.unusedVariables false
/-!
Verification of the Decisify optimization-explainer library.

Shallow embedding of:
* `src/decisify/core.py` (the `SolveStatus` enumeration and the abstract
  input/output record base classes),
* `src/decisify/optimizer.py` (`OptModel.is_solved`, `OptModel.solve_model`,
  and the `GurobiModelMetaData` extractor),
* `src/decisify/utils.py` (`answer_query`),
* `src/decisify/explainer.py` (`GurobiInterrogator`),
* `examples/models/transportation/transportation.py` (the transportation
  model, its literal data, and `TransportationModel.get_solution`).

The external solver (model construction, `optimize`, IIS computation) and the
external language-model completion service are collaborators of this code, not
part of it; they are modelled as explicit oracle parameters, with their
documented contracts stated as hypotheses where a claim depends on them.
Python dictionaries are modelled as total functions (the code only ever looks
up keys it has put in), and floating-point solver values as rationals.
-/
/-- Solver status enumeration, from `decisify/core.py` (`SolveStatus`, an
`IntEnum` with values 1..17), mirroring the external solver's status codes. -/
inductive SolveStatus
  | LOADED | OPTIMAL | INFEASIBLE | INF_OR_UNBD | UNBOUNDED | CUTOFF
  | ITERATION_LIMIT | NODE_LIMIT | TIME_LIMIT | SOLUTION_LIMIT | INTERRUPTED
  | NUMERIC | SUBOPTIMAL | INPROGRESS | USER_OBJ_LIMIT | WORK_LIMIT | MEM_LIMIT
  deriving DecidableEq, Repr
/-- Numeric code of each status (the `IntEnum` values in `core.py` lines 9-25,
identical to the solver's own status codes). -/
def SolveStatus.code : SolveStatus → Nat
  | .LOADED => 1
  | .OPTIMAL => 2
  | .INFEASIBLE => 3
  | .INF_OR_UNBD => 4
  | .UNBOUNDED => 5
  | .CUTOFF => 6
  | .ITERATION_LIMIT => 7
  | .NODE_LIMIT => 8
  | .TIME_LIMIT => 9
  | .SOLUTION_LIMIT => 10
  | .INTERRUPTED => 11
  | .NUMERIC => 12
  | .SUBOPTIMAL => 13
  | .INPROGRESS => 14
  | .USER_OBJ_LIMIT => 15
  | .WORK_LIMIT => 16
  | .MEM_LIMIT => 17
/-- The solver API constant `GRB.OPTIMAL` (status code 2). -/
def GRB_OPTIMAL : Nat := 2
/-- The solver API constant `GRB.TIME_LIMIT` (status code 9). -/
def GRB_TIME_LIMIT : Nat := 9
/-- The solver API constant `GRB.INTEGER`: in the Python API this is the
variable-type character `I`, not a status code. -/
def GRB_INTEGER : Char := 'I'
/-- Python `==` between an `int` and a string value is always `False`
(`int.__eq__` returns `NotImplemented` and the fallback is identity-based
inequality). This models the comparisons `self.model.status == GRB.INTEGER`
in `optimizer.py` line 67 and `transportation.py` line 80, whose right-hand
side is the character `I`, not a status code. -/
def pyIntEqChar (n : Nat) (c : Char) : Bool := false
/-- `OptModel.is_solved` (`optimizer.py` lines 65-67):
`self.model.status == GRB.OPTIMAL or self.model.status == GRB.INTEGER or
self.model.status == GRB.TIME_LIMIT`, applied to the model's status. -/
def is_solved (status : SolveStatus) : Bool :=
  (status.code == GRB_OPTIMAL) || pyIntEqChar status.code GRB_INTEGER ||
    (status.code == GRB_TIME_LIMIT)
/-- Input record for the transportation problem
(`TransportationInputs`, `transportation.py` lines 22-28). The `supply`,
`demand` and `cost` dictionaries are modelled as total functions. -/
structure TransportationInputs where
  warehouses : List String
  customers : List String
  supply : String → ℚ
  demand : String → ℚ
  cost : String → String → ℚ
/-- Module-level literal `warehouses = ["W1", "W2"]` (`transportation.py` line 11). -/
def warehouses : List String := ["W1", "W2"]
/-- Module-level literal `customers = ["C1", "C2", "C3"]` (`transportation.py` line 12). -/
def customers : List String := ["C1", "C2", "C3"]
/-- Module-level literal `supply = {"W1": 20, "W2": 30}` (`transportation.py` line 15). -/
def supply : String → ℚ := fun w => if w = "W1" then 20 else if w = "W2" then 30 else 0
/-- Module-level literal `demand = {"C1": 10, "C2": 10, "C3": 30}`
(`transportation.py` line 16). -/
def demand : String → ℚ := fun c =>
  if c = "C1" then 10 else if c = "C2" then 10 else if c = "C3" then 30 else 0
/-- Module-level literal cost dictionary (`transportation.py` lines 17-18):
`{"W1": {"C1": 2, "C2": 3, "C3": 1}, "W2": {"C1": 4, "C2": 1, "C3": 3}}`. -/
def cost : String → String → ℚ := fun w c =>
  if w = "W1" then (if c = "C1" then 2 else if c = "C2" then 3 else if c = "C3" then 1 else 0)
  else if w = "W2" then (if c = "C1" then 4 else if c = "C2" then 1 else if c = "C3" then 3 else 0)
  else 0
/-- The input record built in `transportation.py` lines 114-119 from the
module-level literals. -/
def exampleInput : TransportationInputs :=
  { warehouses := warehouses, customers := customers,
    supply := supply, demand := demand, cost := cost }
/-- Sum of a rational-valued function over a list of keys (models the
`gp.quicksum` comprehensions in `_generate_opt_model`). -/
def sumOver (l : List String) (f : String → ℚ) : ℚ := (l.map f).sum
/-- Total transportation cost of a flow assignment `x`: the objective set in
`_generate_opt_model` (`transportation.py` line 52),
`sum of cost[w][c] * x[w, c]` over all warehouse/customer pairs. -/
def totalCostOf (inp : TransportationInputs) (x : String → String → ℚ) : ℚ :=
  sumOver inp.warehouses (fun w => sumOver inp.customers (fun c => inp.cost w c * x w c))
/-- Feasibility of a flow for the model built by `_generate_opt_model`
(`transportation.py` lines 43-61): supply constraints
`sum_c x[w,c] <= supply[w]`, demand constraints `sum_w x[w,c] == demand[c]`,
and the solver's default variable lower bound `x[w,c] >= 0`. -/
def Feasible (inp : TransportationInputs) (x : String → String → ℚ) : Prop :=
  (∀ w ∈ inp.warehouses, sumOver inp.customers (x w) ≤ inp.supply w) ∧
  (∀ c ∈ inp.customers, sumOver inp.warehouses (fun w => x w c) = inp.demand c) ∧
  (∀ w ∈ inp.warehouses, ∀ c ∈ inp.customers, 0 ≤ x w c)
/-- A flow is optimal when it is feasible and minimizes the objective among
feasible flows (what the external solver's `optimize` returns on status
`OPTIMAL` for this minimization model). -/
def IsOptimal (inp : TransportationInputs) (x : String → String → ℚ) : Prop :=
  Feasible inp x ∧ ∀ y, Feasible inp y → totalCostOf inp x ≤ totalCostOf inp y
/-- The flow assignment asserted by the specification for the example data:
W1→C2:10, W1→C3:10, W2→C1:10, W2→C3:20 (and zero elsewhere). -/
def claimedFlow : String → String → ℚ := fun w c =>
  if w = "W1" ∧ c = "C2" then 10
  else if w = "W1" ∧ c = "C3" then 10
  else if w = "W2" ∧ c = "C1" then 10
  else if w = "W2" ∧ c = "C3" then 20
  else 0
/-- An actually optimal flow for the example data:
W1→C1:10, W1→C3:10, W2→C2:10, W2→C3:20 (and zero elsewhere). -/
def optFlow : String → String → ℚ := fun w c =>
  if w = "W1" ∧ c = "C1" then 10
  else if w = "W1" ∧ c = "C3" then 10
  else if w = "W2" ∧ c = "C2" then 10
  else if w = "W2" ∧ c = "C3" then 20
  else 0
/-- State of the solver-native model owned by a `TransportationModel` instance:
the input it was generated from, the solver status, the current values of the
decision variables `x[w, c]`, and the objective value attribute. -/
structure TransState where
  input : TransportationInputs
  status : SolveStatus
  xval : String → String → ℚ
  objVal : ℚ
/-- `TransportationModel._generate_opt_model` (`transportation.py` lines 43-61):
builds a fresh solver model for the given input. A newly built, unoptimized
model has status `LOADED` and all variables at their initial value 0. -/
def generate_opt_model (input_data : TransportationInputs) : TransState :=
  { input := input_data, status := .LOADED, xval := fun _ _ => 0, objVal := 0 }
/-- Result of the external solver's IIS computation (`model.computeIIS()`):
the names of constraints with the `IISConstr` flag set, and of variables whose
lower (`IISLB`) or upper (`IISUB`) bound participates in the IIS. -/
structure IISResult where
  iisConstrs : List String
  iisLB : List String
  iisUB : List String
/-- The external solver, as an oracle: `optimize` models `model.optimize()`
(the body of `OptModel.solve_model`, `optimizer.py` lines 61-63) and
`computeIIS` models `model.computeIIS()`. -/
structure SolverOracle where
  optimize : TransState → TransState
  computeIIS : TransState → IISResult
/-- Output record for the transportation problem
(`TransportationOutputs`, `transportation.py` lines 33-37). The solution
dictionary keyed by warehouse/customer pairs is modelled as an association
list. -/
structure TransportationOutputs where
  status : Nat
  total_cost : ℚ
  solution : List ((String × String) × ℚ)
/-- The two kinds of value `TransportationModel.get_solution` actually returns:
a typed output record on success, or a plain diagnostic string on failure
(`transportation.py` line 109). -/
inductive GetSolutionResult
  | output (o : TransportationOutputs)
  | infeasibleMsg (s : String)
/-- The solution dictionary built on `transportation.py` lines 82-87:
`{(w, c): x[w, c].x for w in warehouses for c in customers if x[w, c].x > 1e-6}`. -/
def solutionEntries (inp : TransportationInputs) (x : String → String → ℚ) :
    List ((String × String) × ℚ) :=
  (inp.warehouses.map (fun w =>
    inp.customers.filterMap (fun c =>
      if (1 : ℚ) / 1000000 < x w c then some ((w, c), x w c) else none))).flatten
/-- Header of the IIS diagnostic (`transportation.py` line 95). -/
def iisHeader : String := "Irreducible Inconsistent Subsystem (IIS) Details:\n"
/-- The lines appended to the IIS diagnostic, one per implicated constraint or
variable bound (`transportation.py` lines 97-107). -/
def diagnosticLines (r : IISResult) : List String :=
  r.iisConstrs.map (fun n => "Constraint: " ++ n ++ "\n") ++
  r.iisLB.map (fun n => "Variable " ++ n ++ " has an issue with its lower bound.\n") ++
  r.iisUB.map (fun n => "Variable " ++ n ++ " has an issue with its upper bound.\n")
/-- All constraints and variable bounds implicated by the IIS result. -/
def implicatedItems (r : IISResult) : List String :=
  r.iisConstrs ++ r.iisLB ++ r.iisUB
/-- The string returned on the failure path of `get_solution`
(`transportation.py` lines 95-109): the fixed prefix and header followed by one
line per implicated constraint or variable bound. -/
def infeasibleMessage (r : IISResult) : String :=
  "Model is infeasible. " ++ (iisHeader ++ String.join (diagnosticLines r))
/-- Result of one call to `TransportationModel.get_solution`: the solver model
state afterwards, whether `solve_model`/`optimize` was invoked during the call,
whether `computeIIS` was invoked, and the returned value. -/
structure RunResult where
  state : TransState
  solveInvoked : Bool
  iisComputed : Bool
  result : GetSolutionResult
/-- `TransportationModel.get_solution` (`transportation.py` lines 64-109).

Control flow, line by line: it first unconditionally calls
`self._generate_opt_model(input_data)` (line 66), replacing the owned solver
model by a freshly built one; then branches on `self.is_solved()` (line 67).
In the already-solved branch (lines 68-76) it returns an output record without
solving (in the source the dictionary on line 76 is keyed by the solver
variable objects themselves; since the branch is unreachable — see
`get_solution_always_solves` — the payload is modelled with pair keys like the
other branch). Otherwise it calls `solve_model()` (line 78), and on status
`OPTIMAL`/`TIME_LIMIT` (the `GRB.INTEGER` disjunct on line 80 compares an int
to the character `I` and is always false) returns the filtered solution
record (lines 81-88); on any other status it computes the IIS and returns the
diagnostic string (lines 90-109). -/
def get_solution (oracle : SolverOracle) (input_data : TransportationInputs)
    (s : TransState) : RunResult :=
  let s1 := generate_opt_model input_data
  if is_solved s1.status then
    let out : TransportationOutputs :=
      { status := GRB_OPTIMAL, total_cost := s1.objVal,
        solution := (s1.input.warehouses.map (fun w =>
          s1.input.customers.map (fun c => ((w, c), s1.xval w c)))).flatten }
    { state := s1, solveInvoked := false, iisComputed := false, result := .output out }
  else
    let s2 := oracle.optimize s1
    if (s2.status.code == GRB_OPTIMAL) || pyIntEqChar s2.status.code GRB_INTEGER ||
        (s2.status.code == GRB_TIME_LIMIT) then
      let out : TransportationOutputs :=
        { status := s2.status.code, total_cost := s2.objVal,
          solution := solutionEntries s2.input s2.xval }
      { state := s2, solveInvoked := true, iisComputed := false, result := .output out }
    else
      { state := s2, solveInvoked := true, iisComputed := true,
        result := .infeasibleMsg (infeasibleMessage (oracle.computeIIS s2)) }
/-- A solver decision variable with the attributes read by the metadata
extractor (`optimizer.py` lines 129-140): name, bounds, objective coefficient,
and current solution value `X`. -/
structure GVar where
  VarName : String
  LB : ℚ
  UB : ℚ
  Obj : ℚ
  X : ℚ
/-- A solver constraint with the attributes read by the metadata extractor
(`optimizer.py` lines 142-152): name, sense, right-hand side, and dual value
`Pi` (the shadow price). -/
structure GConstr where
  ConstrName : String
  Sense : String
  RHS : ℚ
  Pi : ℚ
/-- The solver-native model object as seen by `GurobiModelMetaData`: the
attributes the extractor reads. `getVars()`/`getConstrs()` are modelled by the
`vars`/`constrs` lists; `NumVars`/`NumConstrs` are their lengths. `MIPGap` is
an optional attribute (`hasattr` check on `optimizer.py` line 161). -/
structure GurobiModel where
  ModelName : String
  Status : SolveStatus
  vars : List GVar
  constrs : List GConstr
  NumQConstrs : Nat
  NumSOS : Nat
  ModelSense : Int
  ObjVal : ℚ
  Runtime : ℚ
  MIPGap : Option ℚ
  NodeCount : Nat
/-- The solver API constant `GRB.MINIMIZE` (= 1). -/
def GRB_MINIMIZE : Int := 1
/-- The record built by `GurobiModelMetaData.get_basic_info`
(`optimizer.py` lines 118-127). -/
structure BasicInfo where
  ModelName : String
  NumVars : Nat
  NumConstrs : Nat
  NumQConstrs : Nat
  NumSOS : Nat
  ObjectiveSense : String
/-- One entry of the list built by `get_variables_info`
(`optimizer.py` lines 129-140). -/
structure VarInfo where
  Name : String
  LowerBound : ℚ
  UpperBound : ℚ
  ObjectiveCoeff : ℚ
  SolutionValue : Option ℚ
/-- One entry of the list built by `get_constraints_info`
(`optimizer.py` lines 142-152). -/
structure ConstrInfo where
  Name : String
  Sense : String
  RHS : ℚ
  ShadowPrice : Option ℚ
/-- The record built by `get_solution_info` (`optimizer.py` lines 154-165):
either the full solution statistics (status optimal) or just the raw status
code. -/
inductive SolutionInfo
  | optimal (ObjectiveValue : ℚ) (Runtime : ℚ) (MIPGap : Option ℚ) (NodeCount : Nat)
  | statusOnly (Status : Nat)
/-- `GurobiModelMetaData.get_basic_info` (`optimizer.py` lines 118-127), in
state-passing form: every step is a read of a model attribute; the model state
is returned alongside the value. -/
def get_basic_info_st (m : GurobiModel) : BasicInfo × GurobiModel :=
  ({ ModelName := m.ModelName,
     NumVars := m.vars.length,
     NumConstrs := m.constrs.length,
     NumQConstrs := m.NumQConstrs,
     NumSOS := m.NumSOS,
     ObjectiveSense := if m.ModelSense = GRB_MINIMIZE then "Minimize" else "Maximize" }, m)
/-- `GurobiModelMetaData.get_variables_info` (`optimizer.py` lines 129-140):
one record per variable of `getVars()`; the solution value is `var.X` when the
model status is `GRB.OPTIMAL` and `None` otherwise. -/
def get_variables_info_st (m : GurobiModel) : List VarInfo × GurobiModel :=
  (m.vars.map (fun v =>
    { Name := v.VarName,
      LowerBound := v.LB,
      UpperBound := v.UB,
      ObjectiveCoeff := v.Obj,
      SolutionValue := if m.Status = SolveStatus.OPTIMAL then some v.X else none }), m)
/-- `GurobiModelMetaData.get_constraints_info` (`optimizer.py` lines 142-152):
one record per constraint of `getConstrs()`; the shadow price is `constr.Pi`
when the model status is `GRB.OPTIMAL` and `None` otherwise. -/
def get_constraints_info_st (m : GurobiModel) : List ConstrInfo × GurobiModel :=
  (m.constrs.map (fun c =>
    { Name := c.ConstrName,
      Sense := c.Sense,
      RHS := c.RHS,
      ShadowPrice := if m.Status = SolveStatus.OPTIMAL then some c.Pi else none }), m)
/-- `GurobiModelMetaData.get_solution_info` (`optimizer.py` lines 154-165). -/
def get_solution_info_st (m : GurobiModel) : SolutionInfo × GurobiModel :=
  (if m.Status = SolveStatus.OPTIMAL then
    .optimal m.ObjVal m.Runtime m.MIPGap m.NodeCount
  else
    .statusOnly m.Status.code, m)
/-- Rendering of an optional rational, `null` for the absent case (models the
JSON serialization of `None`). -/
def renderOptRat : Option ℚ → String
  | none => "null"
  | some q => toString q
/-- Rendering of the basic-info record (models its `json.dumps` serialization;
the exact text is not load-bearing for any claim). -/
def renderBasicInfo (b : BasicInfo) : String :=
  "ModelName: " ++ b.ModelName ++ ", NumVars: " ++ toString b.NumVars ++
    ", NumConstrs: " ++ toString b.NumConstrs ++ ", NumQConstrs: " ++
    toString b.NumQConstrs ++ ", NumSOS: " ++ toString b.NumSOS ++
    ", ObjectiveSense: " ++ b.ObjectiveSense
/-- Rendering of one variable-info record. -/
def renderVarInfo (v : VarInfo) : String :=
  "Name: " ++ v.Name ++ ", LowerBound: " ++ toString v.LowerBound ++
    ", UpperBound: " ++ toString v.UpperBound ++ ", ObjectiveCoeff: " ++
    toString v.ObjectiveCoeff ++ ", SolutionValue: " ++ renderOptRat v.SolutionValue
/-- Rendering of one constraint-info record. -/
def renderConstrInfo (c : ConstrInfo) : String :=
  "Name: " ++ c.Name ++ ", Sense: " ++ c.Sense ++ ", RHS: " ++ toString c.RHS ++
    ", ShadowPrice: " ++ renderOptRat c.ShadowPrice
/-- Rendering of the solution-info record. -/
def renderSolutionInfo : SolutionInfo → String
  | .optimal obj rt gap nodes =>
      "Status: Optimal, ObjectiveValue: " ++ toString obj ++ ", Runtime: " ++
        toString rt ++ ", MIPGap: " ++ renderOptRat gap ++ ", NodeCount: " ++
        toString nodes
  | .statusOnly s => "Status: " ++ toString s
/-- `GurobiModelMetaData.get_metadata_as_json` (`optimizer.py` lines 167-175):
calls the four extractors in order, threading the model state through each, and
serializes the combined result to a string. -/
def get_metadata_as_json_st (m : GurobiModel) : String × GurobiModel :=
  let (basic, m1) := get_basic_info_st m
  let (vinfos, m2) := get_variables_info_st m1
  let (cinfos, m3) := get_constraints_info_st m2
  let (sinfo, m4) := get_solution_info_st m3
  ("BasicInfo: (" ++ renderBasicInfo basic ++ "), Variables: (" ++
    String.intercalate "; " (vinfos.map renderVarInfo) ++ "), Constraints: (" ++
    String.intercalate "; " (cinfos.map renderConstrInfo) ++ "), Solution: (" ++
    renderSolutionInfo sinfo ++ ")", m4)
/-- `answer_query` (`utils.py` lines 32-39), generic over the record types like
the Python function. `generate` is the external completion call
`forge.generate` (an oracle), and `dumpIn`/`dumpOut` model the records'
`model_dump_json` serializers. The body first serializes both records and
binds the concatenated context to `answer`, then rebinds `answer` to
`forge.generate(query)` — exactly as the source does — and returns it. -/
def answer_query {α β : Type} (generate : String → String)
    (dumpIn : α → String) (dumpOut : β → String)
    (query : String) (input_data : α) (output_data : β)
    (model_metadata : String) : String :=
  let input_data_json := dumpIn input_data
  let output_data_json := dumpOut output_data
  let answer := "input_data: " ++ input_data_json ++ ",\n output_data: " ++
    output_data_json ++ ",\n model_metadata: " ++ model_metadata
  let answer := generate query
  answer
/-- Python exception values raised by this code. -/
inductive PyError
  | typeError (msg : String)
  | notImplementedError (msg : String)
  deriving DecidableEq, Repr
/-- Outcome of a Python call: a normal return value or a raised exception. -/
inductive PyResult (α : Type)
  | ok (a : α)
  | raised (e : PyError)
  deriving DecidableEq, Repr
/-- `GurobiInterrogator.explain` (`explainer.py` lines 53-55): raises
`NotImplementedError("No implementation for explain method")` for every
query. -/
def GurobiInterrogator_explain (query : String) : PyResult String :=
  .raised (.notImplementedError "No implementation for explain method")
/-- The classes of input records present in the repository: the abstract base
`OptInputModel` (`core.py` lines 29-36) and its concrete subclass
`TransportationInputs` (`transportation.py` lines 22-28). -/
inductive InputRecordClass
  | optInputModel
  | transportationInputs
  deriving DecidableEq, Repr
/-- The classes of output records present in the repository: the abstract base
`OptOutputModel` (`core.py` lines 39-46) and its concrete subclass
`TransportationOutputs` (`transportation.py` lines 33-37). -/
inductive OutputRecordClass
  | optOutputModel
  | transportationOutputs
  deriving DecidableEq, Repr
/-- `OptInputModel.__new__` (`core.py` lines 32-36): raises
`TypeError(f"{cls.__name__} class cannot be instantiated")` when the class
being instantiated is the abstract base itself, and otherwise defers to the
normal object allocation (field validation of the concrete record is out of
scope of this constructor gate). -/
def OptInputModel_new (cls : InputRecordClass) : PyResult InputRecordClass :=
  if cls = .optInputModel then
    .raised (.typeError "OptInputModel class cannot be instantiated")
  else
    .ok cls
/-- `OptOutputModel.__new__` (`core.py` lines 42-46): same gate for the output
base class. -/
def OptOutputModel_new (cls : OutputRecordClass) : PyResult OutputRecordClass :=
  if cls = .optOutputModel then
    .raised (.typeError "OptOutputModel class cannot be instantiated")
  else
    .ok cls
/-- State of a `GurobiInterrogator` instance (`explainer.py` lines 38-44): the
owned optimization model's solver state, and the three fields captured at
construction time: the input record, the computed output, and the serialized
metadata snapshot. -/
structure InterrogatorState where
  modelState : TransState
  input_data : TransportationInputs
  output_data : GetSolutionResult
  model_metadata : String
/-- `GurobiInterrogator.__init__` (`explainer.py` lines 38-44): eagerly
computes `self.output_data = self.model.get_solution(input_data)` and
`self.model_metadata = model_metadata(self.model).get_metadata_as_json()`.
`metadataOf` abstracts the `GurobiModelMetaData` extraction applied to the
solver model after the solve. -/
def GurobiInterrogator_init (oracle : SolverOracle)
    (metadataOf : TransState → String)
    (model : TransState) (input_data : TransportationInputs) : InterrogatorState :=
  let r := get_solution oracle input_data model
  { modelState := r.state, input_data := input_data,
    output_data := r.result, model_metadata := metadataOf r.state }
/-- `GurobiInterrogator.answer` (`explainer.py` lines 48-50): forwards the
stored records and metadata snapshot to `answer_query`. -/
def GurobiInterrogator_answer (generate : String → String)
    (dumpIn : TransportationInputs → String)
    (dumpOut : GetSolutionResult → String)
    (st : InterrogatorState) (query : String) : String :=
  answer_query generate dumpIn dumpOut query st.input_data st.output_data st.model_metadata
/-- `GurobiInterrogator.what_if` (`explainer.py` lines 59-62):
`new_inputs = data_transformer(query, self.input_data)` followed by
`return self.model.get_solution(new_inputs)`. The external structured
transform (`data_transformer`, `utils.py` lines 20-29) is an oracle producing
a new input record of the same class. The solver model owned by `self.model`
is mutated by `get_solution`; no field of the interrogator is assigned. -/
def GurobiInterrogator_what_if (oracle : SolverOracle)
    (transformer : String → TransportationInputs → TransportationInputs)
    (st : InterrogatorState) (query : String) :
    GetSolutionResult × InterrogatorState :=
  let new_inputs := transformer query st.input_data
  let r := get_solution oracle new_inputs st.modelState
  (r.result, { st with modelState := r.state })
/-- The infeasible variant of the example data used by the specification's
what-if narrative (`transportation.py` line 132): the demand at customer C1
increased 100-fold, so total demand (1040) exceeds total supply (50). -/
def infeasibleInput : TransportationInputs :=
  { warehouses := warehouses, customers := customers,
    supply := supply,
    demand := fun c =>
      if c = "C1" then 1000 else if c = "C2" then 10 else if c = "C3" then 30 else 0,
    cost := cost }

/-- Empty IIS record (used by oracles whose IIS path is never taken). -/
def emptyIIS : IISResult := { iisConstrs := [], iisLB := [], iisUB := [] }

/-- A solver oracle behaving as the external solver does on the feasible
example instance: `optimize` terminates with status `OPTIMAL`, variable values
`optFlow` and objective value `totalCostOf exampleInput optFlow`. -/
def c1Oracle : SolverOracle :=
  { optimize := fun s =>
      { s with status := SolveStatus.OPTIMAL, xval := optFlow,
               objVal := totalCostOf exampleInput optFlow },
    computeIIS := fun _ => emptyIIS }

/-- An IIS the solver can report for the infeasible variant of the example:
total demand exceeds total supply, implicating both supply constraints and the
inflated demand constraint. -/
def c5IIS : IISResult :=
  { iisConstrs := ["Supply[W1]", "Supply[W2]", "Demand[C1]"], iisLB := [], iisUB := [] }

/-- A solver oracle behaving as the external solver does on an infeasible
instance: `optimize` ends with status `INFEASIBLE` and `computeIIS` reports
`c5IIS`. -/
def c5Oracle : SolverOracle :=
  { optimize := fun s => { s with status := SolveStatus.INFEASIBLE },
    computeIIS := fun _ => c5IIS }

/-- A solver model that has not been solved (status `LOADED`), with one
variable and one constraint, for evaluating the metadata extractor. -/
def mLoadedExample : GurobiModel :=
  { ModelName := "transportation", Status := SolveStatus.LOADED,
    vars := [{ VarName := "x[W1,C1]", LB := 0, UB := 1000000, Obj := 2, X := 0 }],
    constrs := [{ ConstrName := "Supply[W1]", Sense := "<", RHS := 20, Pi := 0 }],
    NumQConstrs := 0, NumSOS := 0, ModelSense := 1, ObjVal := 0, Runtime := 0,
    MIPGap := none, NodeCount := 0 }

/-- The same solver model after an optimal solve: status `OPTIMAL`, the
variable at value 10 and the constraint with shadow price 2. -/
def mOptExample : GurobiModel :=
  { ModelName := "transportation", Status := SolveStatus.OPTIMAL,
    vars := [{ VarName := "x[W1,C1]", LB := 0, UB := 1000000, Obj := 2, X := 10 }],
    constrs := [{ ConstrName := "Supply[W1]", Sense := "<", RHS := 20, Pi := 2 }],
    NumQConstrs := 0, NumSOS := 0, ModelSense := 1, ObjVal := 100, Runtime := 0,
    MIPGap := none, NodeCount := 0 }

/-! Lemmas about the example instance, and the claim theorems. -/

lemma totalCost_expand (x : String → String → ℚ) :
    totalCostOf exampleInput x =
      2 * x "W1" "C1" + 3 * x "W1" "C2" + 1 * x "W1" "C3" +
      (4 * x "W2" "C1" + 1 * x "W2" "C2" + 3 * x "W2" "C3") := by
  simp [totalCostOf, sumOver, exampleInput, warehouses, customers, cost]
  ring

lemma claimedFlow_cost : totalCostOf exampleInput claimedFlow = 140 := by
  rw [totalCost_expand]
  simp only [claimedFlow, String.reduceEq]
  norm_num

lemma optFlow_cost : totalCostOf exampleInput optFlow = 100 := by
  rw [totalCost_expand]
  simp only [optFlow, String.reduceEq]
  norm_num

lemma optFlow_feasible : Feasible exampleInput optFlow := by
  refine ⟨?_, ?_, ?_⟩ <;>
    simp [exampleInput, warehouses, customers, supply, demand, sumOver, optFlow,
      String.reduceEq] <;>
    norm_num [String.reduceEq]

lemma claimedFlow_feasible : Feasible exampleInput claimedFlow := by
  refine ⟨?_, ?_, ?_⟩ <;>
    simp [exampleInput, warehouses, customers, supply, demand, sumOver, claimedFlow,
      String.reduceEq] <;>
    norm_num [String.reduceEq]

/-- Every feasible flow for the example data costs at least 100. -/
lemma example_cost_lower_bound (x : String → String → ℚ) (hx : Feasible exampleInput x) :
    100 ≤ totalCostOf exampleInput x := by
  obtain ⟨hs, hd, hnn⟩ := hx
  have hW1 := hs "W1" (by simp [exampleInput, warehouses])
  have hW2 := hs "W2" (by simp [exampleInput, warehouses])
  have hC1 := hd "C1" (by simp [exampleInput, customers])
  have hC2 := hd "C2" (by simp [exampleInput, customers])
  have hC3 := hd "C3" (by simp [exampleInput, customers])
  have h12 := hnn "W1" (by simp [exampleInput, warehouses]) "C2" (by simp [exampleInput, customers])
  have h21 := hnn "W2" (by simp [exampleInput, warehouses]) "C1" (by simp [exampleInput, customers])
  simp [exampleInput, warehouses, customers, supply, demand, sumOver] at hW1 hW2 hC1 hC2 hC3
  rw [totalCost_expand]
  linarith

lemma optFlow_optimal : IsOptimal exampleInput optFlow := by
  refine ⟨optFlow_feasible, fun y hy => ?_⟩
  rw [optFlow_cost]
  exact example_cost_lower_bound y hy

/-- The optimal objective value of the example instance is exactly 100. -/
lemma optimal_cost_unique (x : String → String → ℚ) (hx : IsOptimal exampleInput x) :
    totalCostOf exampleInput x = 100 := by
  refine le_antisymm ?_ (example_cost_lower_bound x hx.1)
  have h := hx.2 optFlow optFlow_feasible
  rwa [optFlow_cost] at h

/-- The already-solved branch of `get_solution` is dead code: the call to
`_generate_opt_model` on line 66 always resets the model to a fresh `LOADED`
state, so `is_solved` is false and `solve_model` runs on every call. -/
lemma get_solution_always_solves (oracle : SolverOracle)
    (input_data : TransportationInputs) (s : TransState) :
    (get_solution oracle input_data s).solveInvoked = true := by
  simp [get_solution, generate_opt_model, is_solved, SolveStatus.code, pyIntEqChar,
    GRB_OPTIMAL, GRB_TIME_LIMIT]
  split <;> rfl

/-- The infeasible variant really is infeasible: summing the three demand
equalities forces at least 1040 units to be shipped, but the two supply
constraints cap shipments at 50. -/
lemma infeasibleInput_infeasible : ¬ ∃ x, Feasible infeasibleInput x := by
  rintro ⟨x, hs, hd, hnn⟩
  have hW1 := hs "W1" (by simp [infeasibleInput, warehouses])
  have hW2 := hs "W2" (by simp [infeasibleInput, warehouses])
  have hC1 := hd "C1" (by simp [infeasibleInput, customers])
  have hC2 := hd "C2" (by simp [infeasibleInput, customers])
  have hC3 := hd "C3" (by simp [infeasibleInput, customers])
  simp [infeasibleInput, warehouses, customers, supply, sumOver,
    String.reduceEq] at hW1 hW2 hC1 hC2 hC3
  linarith

/-- The diagnostic line list is empty exactly when the IIS implicates no
constraint and no variable bound. -/
lemma diagnosticLines_ne_nil (r : IISResult) (h : implicatedItems r ≠ []) :
    diagnosticLines r ≠ [] := by
  intro hd
  apply h
  simp only [diagnosticLines, List.append_eq_nil, List.map_eq_nil_iff] at hd
  obtain ⟨⟨h1, h2⟩, h3⟩ := hd
  simp [implicatedItems, h1, h2, h3]

/-- C1 (counterexample): the flow mapping asserted by the claim
(W1→C2:10, W1→C3:10, W2→C1:10, W2→C3:20) costs 140, not 90, and is not
optimal: the feasible flow `optFlow` is optimal with cost 100, and 100 ≠ 90,
so no optimal solve of the example data can return total cost 90 or the
claimed mapping. -/
theorem C1_counterexample :
    totalCostOf exampleInput claimedFlow = 140 ∧
    ¬ IsOptimal exampleInput claimedFlow ∧
    IsOptimal exampleInput optFlow ∧
    totalCostOf exampleInput optFlow = 100 ∧ (100 : ℚ) ≠ 90 := by
  refine ⟨claimedFlow_cost, ?_, optFlow_optimal, optFlow_cost, by norm_num⟩
  intro h
  have h140 := optimal_cost_unique claimedFlow h
  rw [claimedFlow_cost] at h140
  norm_num at h140

/-- C1 (amended): for the transportation example data, when the external
solver returns an optimal solution `x` (status `OPTIMAL`, objective value
equal to the objective of `x`), `get_solution` returns a typed output record
with status code 2, total cost exactly 100, and as solution mapping the
entries of `x` above the 1e-6 display threshold; an optimal mapping is, e.g.,
W1→C1:10, W1→C3:10, W2→C2:10, W2→C3:20. -/
theorem C1_example_solution (x : String → String → ℚ) (oracle : SolverOracle)
    (s : TransState)
    (hx : IsOptimal exampleInput x)
    (hopt : oracle.optimize (generate_opt_model exampleInput) =
      { generate_opt_model exampleInput with
          status := SolveStatus.OPTIMAL, xval := x,
          objVal := totalCostOf exampleInput x }) :
    (get_solution oracle exampleInput s).result =
      .output { status := 2, total_cost := 100,
                solution := solutionEntries exampleInput x } := by
  have hval : totalCostOf exampleInput x = 100 := optimal_cost_unique x hx
  simp only [get_solution, hopt]
  norm_num [generate_opt_model, is_solved, SolveStatus.code, pyIntEqChar,
    GRB_OPTIMAL, GRB_TIME_LIMIT, hval]

/-- C1 witness: with the concrete oracle `c1Oracle`, which returns the optimal
flow `optFlow`, `get_solution` on the example input yields the typed record
with total cost 100. -/
theorem C1_example_solution_witness :
    (get_solution c1Oracle exampleInput (generate_opt_model exampleInput)).result =
      .output { status := 2, total_cost := 100,
                solution := solutionEntries exampleInput optFlow } :=
  C1_example_solution optFlow c1Oracle (generate_opt_model exampleInput)
    optFlow_optimal rfl

/-- C2: over the 17 statuses of the enumeration, `is_solved` is true exactly
on `OPTIMAL` and `TIME_LIMIT`. The claim's third alternative,
integer-feasible, names no member of the `SolveStatus` enumeration: the
comparison against `GRB.INTEGER` in the source compares a status code to the
variable-type character `I` and is identically false, so it admits no further
status. -/
theorem C2_is_solved_iff (s : SolveStatus) :
    is_solved s = true ↔ (s = SolveStatus.OPTIMAL ∨ s = SolveStatus.TIME_LIMIT) := by
  cases s <;> decide

/-- C3 (divergence): starting from a solver state whose status is already
`OPTIMAL`, a further `get_solution` call still invokes `solve_model`/
`optimize`: line 66 of `transportation.py` first rebuilds a fresh model, whose
status is `LOADED`, so the already-solved no-re-solve read path is
unreachable. -/
theorem C3_resolves_despite_optimal (oracle : SolverOracle)
    (input_data inp0 : TransportationInputs)
    (xv : String → String → ℚ) (ov : ℚ) :
    (get_solution oracle input_data
        { input := inp0, status := SolveStatus.OPTIMAL, xval := xv, objVal := ov }
      ).solveInvoked = true :=
  get_solution_always_solves oracle input_data _

/-- C4 (divergence): `answer_query` binds the concatenated context string but
immediately rebinds the same variable to `forge.generate(query)` (`utils.py`
lines 36-38), so the completion call receives only the query and the returned
answer is independent of the input record, output record and metadata
snapshot. -/
theorem C4_answer_ignores_context {α β : Type} (generate : String → String)
    (dumpIn : α → String) (dumpOut : β → String) (query : String)
    (input_data : α) (output_data : β) (model_metadata : String) :
    answer_query generate dumpIn dumpOut query input_data output_data model_metadata =
      generate query := rfl

/-- C5: on an instance the solver reports infeasible, `get_solution` reaches
the failure branch: it triggers the IIS computation and, provided the solver's
IIS implicates at least one constraint or variable bound (the solver's
contract for an infeasible model: an irreducible inconsistent subsystem is
nonempty), the returned diagnostic is the fixed prefix and header followed by
one line per implicated constraint or bound — a nonempty list, never a
silently empty diagnostic. -/
theorem C5_infeasible_diagnostic (oracle : SolverOracle)
    (input_data : TransportationInputs) (s s2 : TransState) (r : IISResult)
    (hopt : oracle.optimize (generate_opt_model input_data) = s2)
    (hst : s2.status = SolveStatus.INFEASIBLE)
    (hiis : oracle.computeIIS s2 = r)
    (hne : implicatedItems r ≠ []) :
    (get_solution oracle input_data s).iisComputed = true ∧
    (get_solution oracle input_data s).result = .infeasibleMsg (infeasibleMessage r) ∧
    diagnosticLines r ≠ [] ∧
    infeasibleMessage r =
      "Model is infeasible. " ++ (iisHeader ++ String.join (diagnosticLines r)) := by
  have hbr : ((s2.status.code == GRB_OPTIMAL) || pyIntEqChar s2.status.code GRB_INTEGER ||
      (s2.status.code == GRB_TIME_LIMIT)) = false := by
    rw [hst]; rfl
  refine ⟨?_, ?_, diagnosticLines_ne_nil r hne, rfl⟩ <;>
    simp only [get_solution, hopt, hbr, Bool.false_eq_true, if_false, hiis] <;>
    norm_num [generate_opt_model, is_solved, SolveStatus.code, pyIntEqChar,
      GRB_OPTIMAL, GRB_TIME_LIMIT]

/-- C5 witness: for the concrete infeasible variant of the example data
(demand at C1 inflated to 1000, exceeding the total supply of 50 — see
`infeasibleInput_infeasible`) and the oracle `c5Oracle` reporting status
`INFEASIBLE` with IIS `c5IIS`, `get_solution` computes the IIS and returns the
diagnostic listing the three implicated constraints. -/
theorem C5_infeasible_diagnostic_witness :
    (get_solution c5Oracle infeasibleInput
        (generate_opt_model infeasibleInput)).iisComputed = true ∧
    (get_solution c5Oracle infeasibleInput
        (generate_opt_model infeasibleInput)).result =
      .infeasibleMsg (infeasibleMessage c5IIS) ∧
    diagnosticLines c5IIS ≠ [] ∧
    infeasibleMessage c5IIS =
      "Model is infeasible. " ++ (iisHeader ++ String.join (diagnosticLines c5IIS)) :=
  C5_infeasible_diagnostic c5Oracle infeasibleInput
    (generate_opt_model infeasibleInput)
    (c5Oracle.optimize (generate_opt_model infeasibleInput)) c5IIS rfl rfl rfl
    (by decide)

/-- C6: in metadata extraction, every variable's solution value and every
constraint's shadow price is `None` whenever the model status is not
`OPTIMAL`, and is the present value `some X` resp. `some Pi` whenever the
status is `OPTIMAL`. -/
theorem C6_metadata_gating (m : GurobiModel) :
    (m.Status ≠ SolveStatus.OPTIMAL →
      (get_variables_info_st m).1.map VarInfo.SolutionValue =
          m.vars.map (fun _ => (none : Option ℚ)) ∧
        (get_constraints_info_st m).1.map ConstrInfo.ShadowPrice =
          m.constrs.map (fun _ => (none : Option ℚ))) ∧
    (m.Status = SolveStatus.OPTIMAL →
      (get_variables_info_st m).1.map VarInfo.SolutionValue =
          m.vars.map (fun v => some v.X) ∧
        (get_constraints_info_st m).1.map ConstrInfo.ShadowPrice =
          m.constrs.map (fun c => some c.Pi)) := by
  constructor <;> intro h <;>
    simp [get_variables_info_st, get_constraints_info_st, h, List.map_map,
      Function.comp_def, List.map_const']

/-- C7: every metadata-extraction operation returns the solver model state it
was given unchanged: each operation is a pure read of model attributes, and
the combined JSON extraction threads the state through the four reads
untouched. -/
theorem C7_metadata_preserves_state (m : GurobiModel) :
    (get_basic_info_st m).2 = m ∧ (get_variables_info_st m).2 = m ∧
    (get_constraints_info_st m).2 = m ∧ (get_solution_info_st m).2 = m ∧
    (get_metadata_as_json_st m).2 = m :=
  ⟨rfl, rfl, rfl, rfl, rfl⟩

/-- C8: instantiating the abstract base input or output record raises
`TypeError`, while the concrete subclasses of the repository
(`TransportationInputs`, `TransportationOutputs`) pass the constructor
gate. -/
theorem C8_base_instantiation_gate :
    OptInputModel_new InputRecordClass.optInputModel =
      .raised (.typeError "OptInputModel class cannot be instantiated") ∧
    OptOutputModel_new OutputRecordClass.optOutputModel =
      .raised (.typeError "OptOutputModel class cannot be instantiated") ∧
    OptInputModel_new InputRecordClass.transportationInputs =
      .ok InputRecordClass.transportationInputs ∧
    OptOutputModel_new OutputRecordClass.transportationOutputs =
      .ok OutputRecordClass.transportationOutputs :=
  ⟨rfl, rfl, rfl, rfl⟩

/-- C9: `explain` on the concrete interrogator raises
`NotImplementedError("No implementation for explain method")` for every query
input — it fails rather than returning any default value. -/
theorem C9_explain_raises (query : String) :
    GurobiInterrogator_explain query =
      PyResult.raised
        (PyError.notImplementedError "No implementation for explain method") :=
  rfl

/-- C10: `what_if` leaves the interrogator's stored `input_data`,
`output_data` and `model_metadata` exactly as captured at construction (only
the owned solver model is mutated by the re-solve), so a subsequent `answer`
call passes the original snapshot, not the transformed inputs, to the
completion call. -/
theorem C10_what_if_preserves_snapshot (oracle : SolverOracle)
    (transformer : String → TransportationInputs → TransportationInputs)
    (generate : String → String) (dumpIn : TransportationInputs → String)
    (dumpOut : GetSolutionResult → String)
    (st : InterrogatorState) (query followup : String) :
    (GurobiInterrogator_what_if oracle transformer st query).2.input_data =
        st.input_data ∧
    (GurobiInterrogator_what_if oracle transformer st query).2.output_data =
        st.output_data ∧
    (GurobiInterrogator_what_if oracle transformer st query).2.model_metadata =
        st.model_metadata ∧
    GurobiInterrogator_answer generate dumpIn dumpOut
        (GurobiInterrogator_what_if oracle transformer st query).2 followup =
      answer_query generate dumpIn dumpOut followup st.input_data st.output_data
        st.model_metadata :=
  ⟨rfl, rfl, rfl, rfl⟩
